import Mathlib

/-!
Verification development for the HouseForge token renderer
(`render/scripts/render_token.py`).

The configuration-resolution phase of `render_token` is embedded shallowly:
Blender's mutable scene (`bpy.data.objects`, `bpy.data.materials`, compositor
nodes, render/cycles settings, the `random` module's seeded state) is modelled
as an explicit `Scene` record threaded through pure functions, one per Python
function.  Python float literals are embedded as exact rationals (the tables
only hold short decimal literals, and the spec speaks of their decimal values).
Dictionaries are association lists looked up by first match; `dict.get` with a
default is `Option.getD` after lookup.
-/

/-- First-match association-list lookup, the model of `dict.get(key)` /
`bpy.data.*.get(name)` (`none` when absent). -/
def lookupA {α : Type} : List (String × α) → String → Option α
  | [], _ => none
  | (k, v) :: rest, key => if key = k then some v else lookupA rest key

/-- Update the first entry with the given key in place (no-op when absent):
the model of mutating the object a Python name lookup returned. -/
def modifyA {α : Type} : List (String × α) → String → (α → α) → List (String × α)
  | [], _, _ => []
  | (k, v) :: rest, key, f =>
      if key = k then (k, f v) :: rest else (k, v) :: modifyA rest key f

theorem lookupA_modifyA {α : Type} (l : List (String × α)) (k m : String) (f : α → α) :
    lookupA (modifyA l k f) m =
      if m = k then (lookupA l k).map f else lookupA l m := by
  induction l with
  | nil => simp [lookupA, modifyA]
  | cons hd tl ih =>
      obtain ⟨k0, v0⟩ := hd
      by_cases hk : k = k0
      · subst hk
        by_cases hm : m = k <;> simp [lookupA, modifyA, hm]
      · by_cases hm : m = k0
        · have hmk : ¬ m = k := fun h => hk (h.symm.trans hm)
          have hk0 : ¬ k0 = k := fun h => hk h.symm
          simp [lookupA, modifyA, hk, hm, hmk, hk0]
        · simp [lookupA, modifyA, hk, hm, ih]

/-- Keys are untouched by `modifyA`. -/
theorem lookupA_modifyA_ne {α : Type} (l : List (String × α)) (k m : String) (f : α → α)
    (h : m ≠ k) : lookupA (modifyA l k f) m = lookupA l m := by
  simp [lookupA_modifyA, h]

/-! ## Colors and node sockets -/

/-- An RGB triple, e.g. `(0.6, 0.6, 0.62)`. -/
abbrev RGB := ℚ × ℚ × ℚ

/-- An RGBA quadruple; the scripts write `(*color, 1.0)`. -/
abbrev RGBA := ℚ × ℚ × ℚ × ℚ

/-- Append alpha `1.0` to an RGB triple: the `(*params["color"], 1.0)` idiom. -/
def withAlpha (c : RGB) : RGBA := (c.1, c.2.1, c.2.2, 1)

/-- The inputs of a `BSDF_PRINCIPLED` node touched by the script. -/
structure PrincipledInputs where
  baseColor : RGBA
  metallic : ℚ
  roughness : ℚ
  transmissionWeight : ℚ
  emissionStrength : ℚ
  emissionColor : RGBA
deriving DecidableEq

/-- The inputs of an `EMISSION` node touched by the script. -/
structure EmissionInputs where
  strength : ℚ
  color : RGBA
deriving DecidableEq

/-- A shader node, discriminated the way the script discriminates on
`node.type`. -/
inductive SNode where
  | principled (i : PrincipledInputs)
  | emission (i : EmissionInputs)
  | other
deriving DecidableEq

/-- A material in `bpy.data.materials`: its `use_nodes` flag and node tree. -/
structure Material where
  useNodes : Bool
  nodes : List SNode
deriving DecidableEq

/-- Blender's default Principled BSDF inputs on a freshly created node tree
(engine behaviour at `mat.use_nodes = True`); every value the pipeline later
reads from it is overwritten first, so the exact defaults are inert. -/
def defaultPrincipled : PrincipledInputs :=
  { baseColor := (0.8, 0.8, 0.8, 1), metallic := 0, roughness := 0.5,
    transmissionWeight := 0, emissionStrength := 0, emissionColor := (1, 1, 1, 1) }

/-- `bpy.data.materials.new(...)` followed by `mat.use_nodes = True`:
a node material holding the engine's default Principled BSDF. -/
def newNodeMaterial : Material :=
  { useNodes := true, nodes := [SNode.principled defaultPrincipled] }

/-- An object in `bpy.data.objects`.  `objType` mirrors `obj.type`
(`"LIGHT"`, `"MESH"`, ...); `energy`/`color` model `obj.data.energy` and
`obj.data.color` of light objects; `materials` models `obj.data.materials`
as a list of material-name slots (a slot can be empty). -/
structure Obj where
  objType : String
  hideViewport : Bool
  hideRender : Bool
  energy : ℚ
  color : RGB
  materials : List (Option String)
deriving DecidableEq

/-- A compositor glare node's scalar knobs. -/
structure GlareNode where
  threshold : ℚ
  size : ℤ
  mix : ℚ
deriving DecidableEq

/-- A compositor node, discriminated on `node.type == 'GLARE'`. -/
inductive CompNode where
  | glare (g : GlareNode)
  | other
deriving DecidableEq

/-- The mutable engine state touched by the configuration phase of
`render_token`: objects, materials, world presence, compositor, view
settings, render settings and Cycles settings, plus the state of the
`random` module once seeded. -/
structure Scene where
  rngSeed : Option ℕ
  objects : List (String × Obj)
  materials : List (String × Material)
  world : Bool
  useNodes : Bool
  compNodes : List CompNode
  exposure : ℚ
  renderEngine : String
  resolutionX : ℤ
  resolutionY : ℤ
  resolutionPercent : ℤ
  fileFormat : String
  quality : ℤ
  compression : ℤ
  filmTransparent : Bool
  filepath : String
  cyclesDevice : String
  cyclesSamples : ℤ
  useDenoising : Bool
  denoiser : String
  useAdaptiveSampling : Bool
  adaptiveThreshold : ℚ
  maxBounces : ℤ
  diffuseBounces : ℤ
  glossyBounces : ℤ
  transmissionBounces : ℤ
  volumeBounces : ℤ
deriving DecidableEq

/-- A traits mapping, `trait name → trait value`. -/
abbrev Traits := List (String × String)

/-- `traits.get(key)`: first-match lookup in the traits mapping. -/
def traitsGet (t : Traits) (key : String) : Option String := lookupA t key

/-- `recipe["renderSettings"]`, with each key optional since the script reads
them through `.get` with defaults. -/
structure RenderSettings where
  engine : Option String
  samples : Option ℤ
  denoise : Option Bool
  adaptiveSampling : Option Bool
  maxBounces : Option ℤ
deriving DecidableEq

/-- `recipe["output"]`, keys optional as above. -/
structure OutputSettings where
  width : Option ℤ
  height : Option ℤ
  format : Option String
  quality : Option ℤ
  transparentBackground : Option Bool
deriving DecidableEq

/-- A recipe whose six required fields are all present (what `load_recipe`
returns). -/
structure Recipe where
  tokenId : String
  houseKey : String
  seed : String
  traits : Traits
  output : OutputSettings
  renderSettings : RenderSettings
deriving DecidableEq

/-- A parsed recipe JSON before validation: each required top-level field may
be absent. -/
structure RecipeDict where
  tokenIdField : Option String
  houseKeyField : Option String
  seedField : Option String
  traitsField : Option Traits
  outputField : Option OutputSettings
  renderSettingsField : Option RenderSettings
deriving DecidableEq

/-! ## Deterministic seeding (`seed_random`) -/

/-- Value of one hexadecimal digit, `none` for a non-hex character. -/
def hexDigitVal (c : Char) : Option ℕ :=
  if '0' ≤ c ∧ c ≤ '9' then some (c.toNat - '0'.toNat)
  else if 'a' ≤ c ∧ c ≤ 'f' then some (c.toNat - 'a'.toNat + 10)
  else if 'A' ≤ c ∧ c ≤ 'F' then some (c.toNat - 'A'.toNat + 10)
  else none

/-- Accumulate hex digits left to right; fails on a non-hex character. -/
def hexAccum : List Char → ℕ → Option ℕ
  | [], acc => some acc
  | c :: rest, acc =>
      match hexDigitVal c with
      | none => none
      | some d => hexAccum rest (16 * acc + d)

/-- `int(s, 16)` on the seed strings this pipeline accepts: an optional
`0x`/`0X` marker followed by one or more hex digits; `none` models the
`ValueError` Python raises otherwise. -/
def parseHex (s : String) : Option ℕ :=
  let cs := match s.data with
    | '0' :: 'x' :: rest => rest
    | '0' :: 'X' :: rest => rest
    | l => l
  if cs = [] then none else hexAccum cs 0

/-- `seed_random`: parse the hex seed and seed the `random` module with the
value reduced modulo `2^32`.  Returns `(seed_int, rng state)`; `none` models
the `ValueError` from an unparsable seed. -/
def seed_random (seedHex : String) : Option (ℕ × ℕ) :=
  (parseHex seedHex).map (fun n => (n, n % 2 ^ 32))

/-! ## Material parameter tables -/

/-- A frame-material parameter bundle (every table entry carries all three
keys, read with `[...]`). -/
structure FrameParams where
  color : RGB
  metallic : ℚ
  roughness : ℚ
deriving DecidableEq

/-- The `frame_materials` table of `get_material_params`. -/
def frame_materials : List (String × FrameParams) :=
  [("BrushedSteel", ⟨(0.6, 0.6, 0.62), 1.0, 0.35⟩),
   ("PolishedBrass", ⟨(0.85, 0.65, 0.3), 1.0, 0.15⟩),
   ("AntiqueBronze", ⟨(0.45, 0.35, 0.25), 1.0, 0.5⟩),
   ("WhiteGold", ⟨(0.9, 0.88, 0.8), 1.0, 0.1⟩),
   ("BlackTitanium", ⟨(0.08, 0.08, 0.1), 1.0, 0.25⟩),
   ("CopperVerde", ⟨(0.7, 0.45, 0.35), 1.0, 0.4⟩),
   ("RoseGold", ⟨(0.9, 0.6, 0.55), 1.0, 0.2⟩),
   ("PlatinumMatte", ⟨(0.75, 0.75, 0.78), 1.0, 0.6⟩),
   ("MirrorChrome", ⟨(0.95, 0.95, 0.97), 1.0, 0.02⟩),
   ("GunmetalBlue", ⟨(0.25, 0.28, 0.35), 1.0, 0.3⟩)]

/-- `get_material_params`: table lookup with the `BrushedSteel` entry as the
`dict.get` fallback. -/
def get_material_params (frameType : String) : FrameParams :=
  (lookupA frame_materials frameType).getD ⟨(0.6, 0.6, 0.62), 1.0, 0.35⟩

/-- A core-material parameter bundle; `transmission`, `metallic` and
`emission` are optional keys read via `params.get(..., default)`. -/
structure CoreParams where
  color : RGB
  transmission : Option ℚ
  roughness : ℚ
  metallic : Option ℚ
  emission : Option ℚ
deriving DecidableEq

/-- The `core_materials` table of `get_core_material_params`. -/
def core_materials : List (String × CoreParams) :=
  [("ClearCrystal", ⟨(0.98, 0.99, 1.0), some 0.95, 0.02, none, none⟩),
   ("CloudGlass", ⟨(0.95, 0.96, 0.98), some 0.7, 0.15, none, none⟩),
   ("LiquidMercury", ⟨(0.85, 0.85, 0.88), some 0.0, 0.05, some 0.95, none⟩),
   ("MoltenAmber", ⟨(1.0, 0.7, 0.3), some 0.85, 0.1, none, some 0.1⟩),
   ("VoidObsidian", ⟨(0.02, 0.02, 0.03), some 0.4, 0.08, none, none⟩),
   ("FrozenPlasma", ⟨(0.6, 0.8, 1.0), some 0.3, 0.1, none, some 2.0⟩),
   ("StormEssence", ⟨(0.5, 0.6, 0.8), some 0.5, 0.2, none, some 0.5⟩),
   ("DesertQuartz", ⟨(1.0, 0.95, 0.85), some 0.8, 0.2, none, none⟩),
   ("AuroraSilk", ⟨(0.8, 0.85, 0.9), some 0.6, 0.3, none, none⟩),
   ("EclipseCore", ⟨(0.1, 0.08, 0.12), some 0.2, 0.05, none, some 0.3⟩)]

/-- `get_core_material_params`: table lookup with the `ClearCrystal` entry as
the fallback. -/
def get_core_material_params (coreMaterial : String) : CoreParams :=
  (lookupA core_materials coreMaterial).getD ⟨(0.98, 0.99, 1.0), some 0.95, 0.02, none, none⟩

/-! ## Surface aging -/

/-- The `aging_params` table (`roughness_add` per aging level). -/
def aging_params : List (String × ℚ) :=
  [("Pristine", 0.0), ("SlightWear", 0.05), ("LightPatina", 0.1),
   ("WeatheredGrace", 0.15), ("AncientRelic", 0.25)]

/-- `apply_surface_aging`: when the material uses nodes, add the aging
increment to every Principled BSDF's roughness, clamped by `min(1.0, ...)`;
unknown aging level falls back to the `Pristine` entry. -/
def apply_surface_aging (mat : Material) (agingType : String) : Material :=
  let addR := (lookupA aging_params agingType).getD 0.0
  if mat.useNodes then
    { mat with nodes := mat.nodes.map (fun n =>
        match n with
        | SNode.principled p =>
            SNode.principled { p with roughness := min 1.0 (p.roughness + addR) }
        | x => x) }
  else mat

/-! ## Frame and core material configuration -/

/-- Write the frame parameters into every Principled BSDF of a material
(the node loop of `configure_frame_material`). -/
def setFrameInputs (mat : Material) (p : FrameParams) : Material :=
  { mat with nodes := mat.nodes.map (fun n =>
      match n with
      | SNode.principled i =>
          SNode.principled { i with baseColor := withAlpha p.color,
                                    metallic := p.metallic,
                                    roughness := p.roughness }
      | x => x) }

/-- `frame.data.materials[0] = mat` when a slot exists, else append. -/
def assignSlot0 (slots : List (Option String)) (matName : String) : List (Option String) :=
  match slots with
  | [] => [some matName]
  | _ :: rest => some matName :: rest

/-- `configure_frame_material`: no-op when the `Frame` object is absent;
otherwise get-or-create `MAT_Frame_<frameType>`, write the frame parameters,
apply surface aging, and assign the material to the frame's first slot. -/
def configure_frame_material (t : Traits) (s : Scene) : Scene :=
  match lookupA s.objects "Frame" with
  | none => s
  | some _ =>
      let frameType := (traitsGet t "FrameType").getD "BrushedSteel"
      let params := get_material_params frameType
      let matName := "MAT_Frame_" ++ frameType
      let mats1 := match lookupA s.materials matName with
        | some _ => s.materials
        | none => s.materials ++ [(matName, newNodeMaterial)]
      let mats2 := modifyA mats1 matName (fun m => setFrameInputs m params)
      let aging := (traitsGet t "SurfaceAging").getD "Pristine"
      let mats3 := modifyA mats2 matName (fun m => apply_surface_aging m aging)
      let objs := modifyA s.objects "Frame"
        (fun o => { o with materials := assignSlot0 o.materials matName })
      { s with materials := mats3, objects := objs }

/-- Write the core parameters into every Principled BSDF: base color,
roughness, transmission weight and metallic (the latter two via `.get` with
default `0.0`), plus emission strength/color when `emission > 0`. -/
def setCoreInputs (mat : Material) (p : CoreParams) : Material :=
  { mat with nodes := mat.nodes.map (fun n =>
      match n with
      | SNode.principled i =>
          let i1 := { i with baseColor := withAlpha p.color,
                             roughness := p.roughness,
                             transmissionWeight := p.transmission.getD 0.0,
                             metallic := p.metallic.getD 0.0 }
          if p.emission.getD 0 > 0 then
            SNode.principled { i1 with emissionStrength := p.emission.getD 0,
                                       emissionColor := withAlpha p.color }
          else SNode.principled i1
      | x => x) }

/-- `configure_core_material`: no-op when the `Core` object is absent;
otherwise get-or-create `MAT_Core_<coreType>`, write the core parameters and
assign the material to the core's first slot. -/
def configure_core_material (t : Traits) (s : Scene) : Scene :=
  match lookupA s.objects "Core" with
  | none => s
  | some _ =>
      let coreType := (traitsGet t "CoreMaterial").getD "ClearCrystal"
      let params := get_core_material_params coreType
      let matName := "MAT_Core_" ++ coreType
      let mats1 := match lookupA s.materials matName with
        | some _ => s.materials
        | none => s.materials ++ [(matName, newNodeMaterial)]
      let mats2 := modifyA mats1 matName (fun m => setCoreInputs m params)
      let objs := modifyA s.objects "Core"
        (fun o => { o with materials := assignSlot0 o.materials matName })
      { s with materials := mats2, objects := objs }

/-! ## Geometry selection -/

/-- The closed list of geometry variant objects hidden by
`configure_geometry`. -/
def geometry_objects : List String :=
  ["Geo_Capsule", "Geo_Obelisk", "Geo_Cube", "Geo_Sphere", "Geo_Prism",
   "Geo_BarometerAssembly"]

/-- Set both hide flags of the named object, when it exists. -/
def setHidden (s : Scene) (name : String) (h : Bool) : Scene :=
  { s with objects :=
      modifyA s.objects name (fun o => { o with hideViewport := h, hideRender := h }) }

/-- The hide loop body of `configure_geometry`: hide the named variant when
the object exists. -/
def hideStep (acc : Scene) (n : String) : Scene :=
  match lookupA acc.objects n with
  | none => acc
  | some _ => setHidden acc n true

/-- `configure_geometry`: hide every variant in `geometry_objects`, then
unhide `Geo_<trait value>` (default `Sphere`) when such an object exists. -/
def configure_geometry (t : Traits) (s : Scene) : Scene :=
  let geometryType := (traitsGet t "DioramaGeometry").getD "Sphere"
  let s1 := geometry_objects.foldl hideStep s
  let targetName := "Geo_" ++ geometryType
  match lookupA s1.objects targetName with
  | none => s1
  | some _ => setHidden s1 targetName false

/-! ## Light signatures -/

/-- A light-signature parameter bundle. -/
structure LightSigParams where
  energyMult : ℚ
  accentColor : RGB
deriving DecidableEq

/-- The `signatures` table of `get_light_signature_params`. -/
def light_signatures : List (String × LightSigParams) :=
  [("Sunbeam", ⟨1.2, (1.0, 0.95, 0.85)⟩),
   ("PrismaticRay", ⟨1.0, (1.0, 0.9, 0.95)⟩),
   ("NeonRain", ⟨0.8, (0.4, 0.9, 1.0)⟩),
   ("WetGlow", ⟨0.7, (0.85, 0.92, 1.0)⟩),
   ("LightningFork", ⟨1.5, (0.7, 0.85, 1.0)⟩),
   ("IonBloom", ⟨0.9, (0.6, 0.5, 1.0)⟩),
   ("PolarGlow", ⟨0.85, (0.6, 0.9, 0.8)⟩),
   ("FrostScatter", ⟨1.1, (0.8, 0.95, 1.0)⟩),
   ("AuroraRibbon", ⟨0.75, (0.3, 1.0, 0.6)⟩),
   ("SpectrumVeil", ⟨0.7, (0.8, 0.7, 1.0)⟩),
   ("GoldenHaze", ⟨1.3, (1.0, 0.85, 0.6)⟩),
   ("DustHalo", ⟨0.9, (1.0, 0.9, 0.75)⟩),
   ("EclipseHalo", ⟨0.4, (1.0, 0.7, 0.4)⟩),
   ("RingRim", ⟨0.3, (1.0, 0.8, 0.5)⟩)]

/-- `get_light_signature_params`: table lookup with the `Sunbeam` entry as the
fallback. -/
def get_light_signature_params (signature : String) : LightSigParams :=
  (lookupA light_signatures signature).getD ⟨1.2, (1.0, 0.95, 0.85)⟩

/-- The `house_defaults` table of `configure_lights`. -/
def house_defaults : List (String × String) :=
  [("CLEAR", "Sunbeam"), ("MONSOON", "NeonRain"), ("THUNDER", "LightningFork"),
   ("FROST", "PolarGlow"), ("AURORA", "AuroraRibbon"), ("SAND", "GoldenHaze"),
   ("ECLIPSE", "EclipseHalo")]

/-- The signature resolution step of `configure_lights`: `traits.get` is falsy
(absent key or empty string) → the per-house default, `Sunbeam` for an unknown
house. -/
def resolveLightSignature (t : Traits) (houseKey : String) : String :=
  match traitsGet t "LightSignature" with
  | none => (lookupA house_defaults houseKey).getD "Sunbeam"
  | some v => if v = "" then (lookupA house_defaults houseKey).getD "Sunbeam" else v

/-- Multiply every `EMISSION` node's strength by the multiplier when the
material uses nodes (the inner loop of `adjust_emission_plane_strength`). -/
def scaleEmissionStrength (mat : Material) (mult : ℚ) : Material :=
  if mat.useNodes then
    { mat with nodes := mat.nodes.map (fun n =>
        match n with
        | SNode.emission e => SNode.emission { e with strength := e.strength * mult }
        | x => x) }
  else mat

/-- The material loop of `adjust_emission_plane_strength`: for each non-empty
slot, scale the emission strengths of the named material in the global
material table. -/
def scaleSlotMaterials (slots : List (Option String)) (mult : ℚ)
    (ms : List (String × Material)) : List (String × Material) :=
  slots.foldl (fun acc slot =>
    match slot with
    | none => acc
    | some matName => modifyA acc matName (fun m => scaleEmissionStrength m mult)) ms

/-- `adjust_emission_plane_strength`: guard on an empty material-slot list
(Python's `not obj.data or not obj.data.materials`), then scale the emission
strength in each non-empty slot's material (slots naming the same material are
scaled once per slot, as the Python loop does). -/
def adjust_emission_plane_strength (s : Scene) (o : Obj) (mult : ℚ) : Scene :=
  if o.materials = [] then s
  else { s with materials := scaleSlotMaterials o.materials mult s.materials }

/-- The accent/fill loop body of `configure_lights`: recolor the named object
only when it is a true `LIGHT`; `MESH` emission planes keep their template
color (the explicit `pass` branch). -/
def applyAccentColor (s : Scene) (name : String) (c : RGB) : Scene :=
  match lookupA s.objects name with
  | none => s
  | some o =>
      if o.objType = "LIGHT" then
        { s with objects := modifyA s.objects name (fun o2 => { o2 with color := c }) }
      else s

/-- The Key-light block of `configure_lights`: multiply a true light's energy,
or an emission plane's emission strengths, by the resolved multiplier. -/
def adjustKeyLight (s : Scene) (mult : ℚ) : Scene :=
  match lookupA s.objects "Light_Key" with
  | none => s
  | some o =>
      if o.objType = "LIGHT" then
        let objs := modifyA s.objects "Light_Key"
          (fun o2 => { o2 with energy := o2.energy * mult })
        { s with objects := objs }
      else if o.objType = "MESH" then adjust_emission_plane_strength s o mult
      else s

/-- `configure_lights`: resolve the signature, multiply the Key light's energy
(`LIGHT`) or its emission-plane strength (`MESH`), then recolor
`Light_Accent` and `Light_Fill` when they are true lights. -/
def configure_lights (t : Traits) (houseKey : String) (s : Scene) : Scene :=
  let params := get_light_signature_params (resolveLightSignature t houseKey)
  let s1 := adjustKeyLight s params.energyMult
  let s2 := applyAccentColor s1 "Light_Accent" params.accentColor
  applyAccentColor s2 "Light_Fill" params.accentColor

/-! ## Atmosphere -/

/-- The `atmosphere_settings` table (volume density per atmosphere level). -/
def atmosphere_settings : List (String × ℚ) :=
  [("Clear", 0.0), ("MistVeil", 0.1), ("RainCurtain", 0.08), ("DustStorm", 0.15),
   ("SnowDrift", 0.05), ("ThunderCloud", 0.12), ("AuroraWisp", 0.03),
   ("EclipseShadow", 0.08)]

/-- `configure_atmosphere`: returns early when the scene has no world;
otherwise it looks up the volume density for the trait value but — as the
source comments note ("Volume implementation would go here") — never writes it
anywhere. -/
def configure_atmosphere (t : Traits) (s : Scene) : Scene :=
  let atmosphere := (traitsGet t "Atmosphere").getD "Clear"
  if s.world = false then s
  else
    let _density := (lookupA atmosphere_settings atmosphere).getD 0.0
    s

/-! ## Lens bloom -/

/-- A `bloom_settings` entry; each key is optional because the source's
entries carry different keys (`None` only has `enabled`) and all reads go
through `.get` with defaults. -/
structure BloomEntry where
  enabled : Option Bool
  threshold : Option ℚ
  size : Option ℤ
  mix : Option ℚ
deriving DecidableEq

/-- The `bloom_settings` table of `configure_lens_bloom`. -/
def bloom_settings : List (String × BloomEntry) :=
  [("None", ⟨some false, none, none, none⟩),
   ("Subtle", ⟨none, some 0.9, some 3, some 0⟩),
   ("Moderate", ⟨none, some 0.8, some 5, some 0⟩),
   ("Intense", ⟨none, some 0.7, some 8, some 0⟩),
   ("Cinematic", ⟨none, some 0.75, some 6, some 0⟩)]

/-- `configure_lens_bloom`: resolve the bloom level (absent → `Subtle`,
unknown → the `Subtle` entry), return unchanged when the entry is disabled or
the scene has no compositor node tree, else write threshold/size/mix into
every `GLARE` node. -/
def configure_lens_bloom (t : Traits) (s : Scene) : Scene :=
  let bloomType := (traitsGet t "LensBloom").getD "Subtle"
  let settings := (lookupA bloom_settings bloomType).getD ⟨none, some 0.9, some 3, some 0⟩
  if settings.enabled.getD true = false then s
  else if s.useNodes = false then s
  else
    { s with compNodes := s.compNodes.map (fun n =>
        match n with
        | CompNode.glare _ =>
            CompNode.glare ⟨settings.threshold.getD 0.8, settings.size.getD 7,
                            settings.mix.getD 0⟩
        | x => x) }

/-! ## Palette temperature -/

/-- The exposure column of the `temp_settings` table (the `gamma` column is
looked up but never applied by the source). -/
def temp_settings_exposure : List (String × ℚ) :=
  [("Warm", 0.1), ("Cool", 0.0), ("Neutral", 0.0), ("HighContrast", 0.05),
   ("Desaturated", 0.0)]

/-- `apply_palette_temperature`: set the view exposure from the table
(absent → `Neutral`, unknown → the `Neutral` entry). -/
def apply_palette_temperature (t : Traits) (s : Scene) : Scene :=
  let temp := (traitsGet t "PaletteTemperature").getD "Neutral"
  let exposure := (lookupA temp_settings_exposure temp).getD 0.0
  { s with exposure := exposure }

/-! ## Render and output settings -/

/-- `configure_render_settings`: set the engine and, for `CYCLES`, the device,
samples, denoising, adaptive sampling and bounce caps.  The GPU-preferences
`try` block only touches host preferences (external to the scene) and is
absorbed by its own `except`, so it has no scene effect to model. -/
def configure_render_settings (rs : RenderSettings) (s : Scene) : Scene :=
  let engine := rs.engine.getD "CYCLES"
  let s := { s with renderEngine := engine }
  if engine = "CYCLES" then
    let s := { s with cyclesDevice := "GPU" }
    let s := { s with cyclesSamples := rs.samples.getD 96 }
    let s := if rs.denoise.getD true then
        { s with useDenoising := true, denoiser := "OPENIMAGEDENOISE" }
      else s
    let s := if rs.adaptiveSampling.getD true then
        { s with useAdaptiveSampling := true, adaptiveThreshold := 0.015 }
      else s
    let mb := rs.maxBounces.getD 6
    { s with maxBounces := mb, diffuseBounces := min 2 mb, glossyBounces := min 3 mb,
             transmissionBounces := min 6 mb, volumeBounces := min 2 mb }
  else s

/-- `configure_output`: resolution, format (quality for WEBP, fixed
compression for PNG), film transparency and output path. -/
def configure_output (o : OutputSettings) (outputPath : String) (s : Scene) : Scene :=
  let s := { s with resolutionX := o.width.getD 1024, resolutionY := o.height.getD 1024,
                    resolutionPercent := 100 }
  let formatType := o.format.getD "WEBP"
  let s := { s with fileFormat := formatType }
  let s := if formatType = "WEBP" then { s with quality := o.quality.getD 90 }
    else if formatType = "PNG" then { s with compression := 15 }
    else s
  { s with filmTransparent := o.transparentBackground.getD false, filepath := outputPath }

/-! ## The `render_token` configuration phase and entry point -/

/-- The configuration phase of `render_token`, in source order: seed the
stream from the recipe seed (`none` models the `ValueError` of an unparsable
seed, raised before anything is configured), then geometry, frame material,
core material, lights, atmosphere, lens bloom, palette temperature, render
settings and output settings.  The final `bpy.ops.render.render` call is the
external renderer, outside the configuration phase. -/
def renderTokenConfig (recipe : Recipe) (outputPath : String) (s : Scene) : Option Scene :=
  match seed_random recipe.seed with
  | none => none
  | some (_, st) =>
      let s := { s with rngSeed := some st }
      let s := configure_geometry recipe.traits s
      let s := configure_frame_material recipe.traits s
      let s := configure_core_material recipe.traits s
      let s := configure_lights recipe.traits recipe.houseKey s
      let s := configure_atmosphere recipe.traits s
      let s := configure_lens_bloom recipe.traits s
      let s := apply_palette_temperature recipe.traits s
      let s := configure_render_settings recipe.renderSettings s
      let s := configure_output recipe.output outputPath s
      some s

/-- `load_recipe`'s validation loop: check the six required fields in source
order and raise `ValueError(f"Missing required field: {field}")` at the first
absent one, else return the recipe. -/
def load_recipe (d : RecipeDict) : Except String Recipe :=
  match d.tokenIdField with
  | none => Except.error "Missing required field: tokenId"
  | some tid =>
    match d.houseKeyField with
    | none => Except.error "Missing required field: houseKey"
    | some hk =>
      match d.seedField with
      | none => Except.error "Missing required field: seed"
      | some sd =>
        match d.traitsField with
        | none => Except.error "Missing required field: traits"
        | some tr =>
          match d.outputField with
          | none => Except.error "Missing required field: output"
          | some out =>
            match d.renderSettingsField with
            | none => Except.error "Missing required field: renderSettings"
            | some rs => Except.ok ⟨tid, hk, sd, tr, out, rs⟩

/-- `main` after argument parsing: load and validate the recipe, then run the
configuration phase.  The pair carries the resulting scene state, unchanged
whenever an error propagates out of `load_recipe` or the seed parse. -/
def mainRun (d : RecipeDict) (outputPath : String) (s : Scene) :
    Except String Unit × Scene :=
  match load_recipe d with
  | Except.error e => (Except.error e, s)
  | Except.ok recipe =>
      match renderTokenConfig recipe outputPath s with
      | none => (Except.error "ValueError: invalid hex seed", s)
      | some s2 => (Except.ok (), s2)

/-! ## Observation helpers and a concrete test scene -/

/-- The first Principled BSDF of a material (all its siblings receive the same
writes in this pipeline). -/
def firstPrincipled (m : Material) : Option PrincipledInputs :=
  m.nodes.findSome? (fun n =>
    match n with
    | SNode.principled p => some p
    | _ => none)

/-- The emission colors of a material's `EMISSION` nodes, in node order. -/
def matEmissionColors (m : Material) : List RGBA :=
  m.nodes.filterMap (fun n =>
    match n with
    | SNode.emission e => some e.color
    | _ => none)

/-- The material-name slots of the `Light_Key` object (empty when absent). -/
def keySlots (s : Scene) : List (Option String) :=
  match lookupA s.objects "Light_Key" with
  | none => []
  | some o => o.materials

/-- How many of the closed geometry variants are visible (both hide flags
clear) in a scene. -/
def visibleVariantCount (s : Scene) : ℕ :=
  (geometry_objects.filter (fun n =>
    match lookupA s.objects n with
    | none => false
    | some o => !o.hideViewport && !o.hideRender)).length

/-- A visible mesh object with no material slots (a geometry variant). -/
def geoObj : Obj := ⟨"MESH", false, false, 0, (0, 0, 0), []⟩

/-- A concrete scene shaped like a generated house template: the six geometry
variants (visible), the `Frame`/`Core` meshes with one material slot each, a
`Light_Key`/`Light_Fill` pair of true lights, mesh emission planes for
`Light_Accent`/`Light_Rim`, a world and a compositor with one glare node. -/
def templateScene : Scene :=
  { rngSeed := none,
    objects :=
      [("Geo_Capsule", geoObj), ("Geo_Obelisk", geoObj), ("Geo_Cube", geoObj),
       ("Geo_Sphere", geoObj), ("Geo_Prism", geoObj), ("Geo_BarometerAssembly", geoObj),
       ("Frame", ⟨"MESH", false, false, 0, (0, 0, 0), [some "MAT_Frame_FROST"]⟩),
       ("Core", ⟨"MESH", false, false, 0, (0, 0, 0), [some "MAT_Core_FROST"]⟩),
       ("Light_Key", ⟨"LIGHT", false, false, 100, (1, 1, 1), []⟩),
       ("Light_Fill", ⟨"LIGHT", false, false, 50, (1, 1, 1), []⟩),
       ("Light_Accent", ⟨"MESH", false, false, 0, (1, 1, 1), [some "MAT_Accent"]⟩),
       ("Light_Rim", ⟨"MESH", false, false, 0, (1, 1, 1), [some "MAT_Rim"]⟩)],
    materials :=
      [("MAT_Frame_FROST", ⟨true, [SNode.principled defaultPrincipled]⟩),
       ("MAT_Core_FROST", ⟨true, [SNode.principled defaultPrincipled]⟩),
       ("MAT_Accent", ⟨true, [SNode.emission ⟨5, (1, 0.5, 0.2, 1)⟩]⟩),
       ("MAT_Rim", ⟨true, [SNode.emission ⟨3, (0.2, 0.5, 1, 1)⟩]⟩)],
    world := true,
    useNodes := true,
    compNodes := [CompNode.glare ⟨1.0, 6, 0.18⟩, CompNode.other],
    exposure := 0,
    renderEngine := "CYCLES",
    resolutionX := 1024, resolutionY := 1024, resolutionPercent := 100,
    fileFormat := "WEBP", quality := 90, compression := 15,
    filmTransparent := false, filepath := "",
    cyclesDevice := "CPU", cyclesSamples := 96,
    useDenoising := false, denoiser := "",
    useAdaptiveSampling := false, adaptiveThreshold := 0,
    maxBounces := 6, diffuseBounces := 2, glossyBounces := 3,
    transmissionBounces := 6, volumeBounces := 2 }

/-! ## Shared helper lemmas -/

/-- `configure_atmosphere` computes but never writes: helper identity. -/
theorem configure_atmosphere_id (t : Traits) (s : Scene) : configure_atmosphere t s = s := by
  unfold configure_atmosphere
  by_cases h : s.world = false <;> simp [h]

/-- `modifyA` with a key that is absent leaves the list unchanged. -/
theorem modifyA_absent {α : Type} (l : List (String × α)) (k : String) (f : α → α)
    (h : lookupA l k = none) : modifyA l k f = l := by
  induction l with
  | nil => rfl
  | cons hd tl ih =>
      obtain ⟨k0, v0⟩ := hd
      by_cases hk : k = k0
      · subst hk
        simp [lookupA] at h
      · simp [lookupA, hk] at h
        simp [modifyA, hk, ih h]

/-! ## C9: the Atmosphere trait has no effect -/

/-- C9: for every traits mapping and every Atmosphere value,
`configure_atmosphere` leaves the scene unchanged — it looks up a volume
density but never writes it to the world or any object. -/
theorem configure_atmosphere_is_noop (t : Traits) (s : Scene) :
    configure_atmosphere t s = s :=
  configure_atmosphere_id t s

/-! ## C5: unknown FrameType falls back to BrushedSteel -/

/-- C5: for every FrameType value absent from the frame-material table,
`get_material_params` returns exactly the `BrushedSteel` parameter bundle (the
lookup is total, so it never raises). -/
theorem get_material_params_unknown_is_brushed_steel (frameType : String)
    (h : lookupA frame_materials frameType = none) :
    get_material_params frameType = get_material_params "BrushedSteel" := by
  unfold get_material_params
  rw [h]
  rfl

/-- Witness for C5 at the spec's example value `"Nonexistent"`. -/
theorem get_material_params_unknown_is_brushed_steel_witness :
    lookupA frame_materials "Nonexistent" = none ∧
      get_material_params "Nonexistent" = get_material_params "BrushedSteel" :=
  ⟨by rfl, get_material_params_unknown_is_brushed_steel "Nonexistent" (by rfl)⟩

/-! ## C4: seed reduction modulo 2^32 -/

/-- C4: any two hex seed strings whose parsed values are congruent modulo
`2^32` put the random stream in the same state (`seed_random` reduces the
parsed integer modulo `2^32` before seeding), so everything later drawn from
the stream coincides. -/
theorem seed_random_congruent_mod_2_32 (s1 s2 : String) (n1 n2 : ℕ)
    (h1 : parseHex s1 = some n1) (h2 : parseHex s2 = some n2)
    (hc : n1 % 2 ^ 32 = n2 % 2 ^ 32) :
    (seed_random s1).map Prod.snd = (seed_random s2).map Prod.snd ∧
      (seed_random s1).map Prod.snd = some (n1 % 2 ^ 32) := by
  refine ⟨?_, ?_⟩
  · simp [seed_random, h1, h2]
    omega
  · simp [seed_random, h1, h2]

/-- Witness for C4 at the spec's example seeds `"0x1"` and `hex(2**32 + 1)`. -/
theorem seed_random_congruent_mod_2_32_witness :
    (seed_random "0x1").map Prod.snd = (seed_random "0x100000001").map Prod.snd ∧
      (seed_random "0x1").map Prod.snd = some (1 % 2 ^ 32) :=
  seed_random_congruent_mod_2_32 "0x1" "0x100000001" 1 4294967297
    (by decide) (by decide) (by decide)

/-! ## C3: the FROST end-to-end material scenario -/

/-- The trait vector of the spec's FROST end-to-end scenario. -/
def frostTraits : Traits :=
  [("CoreMaterial", "FrozenPlasma"), ("FrameType", "WhiteGold"),
   ("SurfaceAging", "AncientRelic")]

/-- C3: with `CoreMaterial=FrozenPlasma`, `FrameType=WhiteGold`,
`SurfaceAging=AncientRelic`, the resolved core material has
`transmission=0.3`, `roughness=0.1`, `emission strength=2.0` (both in the
table and on the configured Principled BSDF), and the configured frame
material's roughness is the WhiteGold base `0.1` plus the AncientRelic aging
increment `0.25`, i.e. `min(1.0, 0.35) = 0.35 ≤ 1`. -/
theorem frost_end_to_end_materials :
    (get_core_material_params "FrozenPlasma").transmission = some 0.3 ∧
    (get_core_material_params "FrozenPlasma").roughness = 0.1 ∧
    (get_core_material_params "FrozenPlasma").emission = some 2.0 ∧
    ((lookupA (configure_core_material frostTraits templateScene).materials
        "MAT_Core_FrozenPlasma").bind firstPrincipled).map
      (fun p => (p.transmissionWeight, p.roughness, p.emissionStrength)) =
      some (0.3, 0.1, 2.0) ∧
    (get_material_params "WhiteGold").roughness = 0.1 ∧
    lookupA aging_params "AncientRelic" = some 0.25 ∧
    ((lookupA (configure_frame_material frostTraits templateScene).materials
        "MAT_Frame_WhiteGold").bind firstPrincipled).map PrincipledInputs.roughness =
      some 0.35 ∧
    min (1.0 : ℚ) (0.1 + 0.25) = 0.35 ∧ (0.35 : ℚ) ≤ 1 := by
  with_unfolding_all decide

/-! ## C2: geometry selection -/

/-- Both hide flags set, the per-variant effect of the hide loop. -/
def hideBoth (o : Obj) : Obj := { o with hideViewport := true, hideRender := true }

theorem lookupA_hideStep (s : Scene) (n m : String) :
    lookupA (hideStep s n).objects m =
      if m = n then (lookupA s.objects n).map hideBoth else lookupA s.objects m := by
  unfold hideStep setHidden
  cases h : lookupA s.objects n with
  | none =>
      by_cases hm : m = n
      · subst hm
        simp [h]
      · simp [hm]
  | some o =>
      rw [lookupA_modifyA]
      by_cases hm : m = n <;> simp [hm, h, hideBoth]

theorem lookupA_hideFold (names : List String) (s : Scene) (m : String) :
    lookupA (names.foldl hideStep s).objects m =
      if m ∈ names then (lookupA s.objects m).map hideBoth else lookupA s.objects m := by
  induction names generalizing s with
  | nil => simp
  | cons n rest ih =>
      simp only [List.foldl_cons]
      rw [ih, lookupA_hideStep]
      by_cases hm : m = n
      · subst hm
        by_cases hr : m ∈ rest
        · simp only [if_pos hr, if_pos rfl, List.mem_cons, true_or, if_pos]
          cases lookupA s.objects m <;> rfl
        · simp [hr, List.mem_cons]
      · by_cases hr : m ∈ rest <;> simp [List.mem_cons, hm, hr]

/-- C2 counterexample: on a template scene holding all six variants (all
visible), the unknown DioramaGeometry value `"Nonexistent"` leaves ZERO
variants visible — the hide loop hides all six and `Geo_Nonexistent` does not
exist, so nothing (in particular not the `Sphere` default) is shown. -/
theorem configure_geometry_unknown_value_hides_everything :
    visibleVariantCount templateScene = 6 ∧
      visibleVariantCount
        (configure_geometry [("DioramaGeometry", "Nonexistent")] templateScene) = 0 := by
  with_unfolding_all decide

/-- C2 amended: when every variant object exists, `configure_geometry` makes
exactly the selected variant visible — provided the resolved value (default
`Sphere` when the trait is absent) names one of the six known variants; for an
unknown value it hides all six variants and makes none visible. -/
theorem configure_geometry_amended (t : Traits) (s : Scene)
    (hp : ∀ n ∈ geometry_objects, (lookupA s.objects n).isSome) :
    (("Geo_" ++ (traitsGet t "DioramaGeometry").getD "Sphere") ∈ geometry_objects →
      ∀ n ∈ geometry_objects, ∃ o,
        lookupA (configure_geometry t s).objects n = some o ∧
        ((o.hideViewport = false ∧ o.hideRender = false) ↔
          n = "Geo_" ++ (traitsGet t "DioramaGeometry").getD "Sphere")) ∧
    (("Geo_" ++ (traitsGet t "DioramaGeometry").getD "Sphere") ∉ geometry_objects →
      ∀ n ∈ geometry_objects, ∃ o,
        lookupA (configure_geometry t s).objects n = some o ∧
        o.hideViewport = true ∧ o.hideRender = true) := by
  unfold configure_geometry
  generalize (traitsGet t "DioramaGeometry").getD "Sphere" = gt
  constructor
  · intro hmem n hn
    obtain ⟨o0, ho0⟩ := Option.isSome_iff_exists.mp (hp _ hmem)
    have h1 : lookupA (geometry_objects.foldl hideStep s).objects ("Geo_" ++ gt) =
        some (hideBoth o0) := by
      rw [lookupA_hideFold, if_pos hmem, ho0]
      rfl
    simp only [h1]
    by_cases hng : n = "Geo_" ++ gt
    · refine ⟨{ hideBoth o0 with hideViewport := false, hideRender := false }, ?_, ?_⟩
      · unfold setHidden
        rw [lookupA_modifyA, if_pos hng, h1]
        rfl
      · simp [hng]
    · obtain ⟨o1, ho1⟩ := Option.isSome_iff_exists.mp (hp n hn)
      refine ⟨hideBoth o1, ?_, ?_⟩
      · unfold setHidden
        rw [lookupA_modifyA_ne _ _ _ _ hng, lookupA_hideFold, if_pos hn, ho1]
        rfl
      · simp [hideBoth, hng]
  · intro hnmem n hn
    have hng : n ≠ "Geo_" ++ gt := fun h => hnmem (h ▸ hn)
    obtain ⟨o1, ho1⟩ := Option.isSome_iff_exists.mp (hp n hn)
    have h3 : lookupA (geometry_objects.foldl hideStep s).objects n = some (hideBoth o1) := by
      rw [lookupA_hideFold, if_pos hn, ho1]
      rfl
    have h1 : lookupA (geometry_objects.foldl hideStep s).objects ("Geo_" ++ gt) =
        lookupA s.objects ("Geo_" ++ gt) := by
      rw [lookupA_hideFold, if_neg hnmem]
    cases hg2 : lookupA s.objects ("Geo_" ++ gt) with
    | none =>
        rw [hg2] at h1
        simp only [h1]
        exact ⟨hideBoth o1, h3, rfl, rfl⟩
    | some o2 =>
        rw [hg2] at h1
        simp only [h1]
        refine ⟨hideBoth o1, ?_, rfl, rfl⟩
        show lookupA (setHidden _ _ false).objects n = _
        unfold setHidden
        rw [lookupA_modifyA_ne _ _ _ _ hng]
        exact h3

/-- Witness for C2's amended theorem: with no DioramaGeometry trait the
default `Sphere` variant is the visible one in the template scene. -/
theorem configure_geometry_amended_witness :
    ∃ o, lookupA (configure_geometry [] templateScene).objects "Geo_Sphere" = some o ∧
      ((o.hideViewport = false ∧ o.hideRender = false) ↔
        "Geo_Sphere" = "Geo_" ++ (traitsGet [] "DioramaGeometry").getD "Sphere") :=
  (configure_geometry_amended [] templateScene (by with_unfolding_all decide)).1
    (by with_unfolding_all decide) "Geo_Sphere" (by with_unfolding_all decide)

/-! ## C10: lens bloom glare mix -/

/-- C10: every bloom level other than `None` (absent and unknown values use
the `Subtle` entry) writes `mix = 0` into every compositor glare node — the
levels differ only in threshold and size — while `LensBloom = "None"` leaves
the scene, and so the glare nodes, entirely unchanged. -/
theorem configure_lens_bloom_glare_mix_zero (t : Traits) (s : Scene) :
    ((traitsGet t "LensBloom").getD "Subtle" ≠ "None" → s.useNodes = true →
      ∀ g : GlareNode, CompNode.glare g ∈ (configure_lens_bloom t s).compNodes →
        g.mix = 0) ∧
    ((traitsGet t "LensBloom").getD "Subtle" = "None" →
      configure_lens_bloom t s = s) := by
  constructor
  · intro hbt hn g hg
    have hset : (((lookupA bloom_settings ((traitsGet t "LensBloom").getD "Subtle")).getD
          ⟨none, some 0.9, some 3, some 0⟩).enabled.getD true = true) ∧
        (((lookupA bloom_settings ((traitsGet t "LensBloom").getD "Subtle")).getD
          ⟨none, some 0.9, some 3, some 0⟩).mix.getD 0 = 0) := by
      revert hbt
      generalize (traitsGet t "LensBloom").getD "Subtle" = bt
      intro hbt
      by_cases h2 : bt = "Subtle"
      · subst h2; exact ⟨rfl, rfl⟩
      by_cases h3 : bt = "Moderate"
      · subst h3; exact ⟨rfl, rfl⟩
      by_cases h4 : bt = "Intense"
      · subst h4; exact ⟨rfl, rfl⟩
      by_cases h5 : bt = "Cinematic"
      · subst h5; exact ⟨rfl, rfl⟩
      have hnone : lookupA bloom_settings bt = none := by
        simp [bloom_settings, lookupA, hbt, h2, h3, h4, h5]
      rw [hnone]
      exact ⟨rfl, rfl⟩
    simp only [configure_lens_bloom] at hg
    rw [hset.1] at hg
    simp only [if_neg (by simp : ¬ (true = false))] at hg
    rw [hn] at hg
    simp only [if_neg (by simp : ¬ (true = false))] at hg
    rcases List.mem_map.mp hg with ⟨a, _, hfa⟩
    cases a with
    | glare g0 =>
        cases hfa
        exact hset.2
    | other => cases hfa
  · intro hbt
    simp only [configure_lens_bloom, hbt]
    simp [bloom_settings, lookupA]

/-- Witness for C10: `Intense` zeroes the template glare node's mix, `None`
leaves the template scene untouched. -/
theorem configure_lens_bloom_glare_mix_zero_witness :
    (∀ g : GlareNode, CompNode.glare g ∈
        (configure_lens_bloom [("LensBloom", "Intense")] templateScene).compNodes →
        g.mix = 0) ∧
      configure_lens_bloom [("LensBloom", "None")] templateScene = templateScene :=
  ⟨(configure_lens_bloom_glare_mix_zero [("LensBloom", "Intense")] templateScene).1
      (by decide) (by rfl),
   (configure_lens_bloom_glare_mix_zero [("LensBloom", "None")] templateScene).2 (by rfl)⟩

/-! ## Light lemmas (C6, C8) -/

theorem applyAccent_materials (s : Scene) (n : String) (c : RGB) :
    (applyAccentColor s n c).materials = s.materials := by
  unfold applyAccentColor
  cases h : lookupA s.objects n with
  | none => rfl
  | some o => by_cases ht : o.objType = "LIGHT" <;> simp [ht]

theorem lookupA_applyAccent (s : Scene) (n : String) (c : RGB) (m : String) :
    lookupA (applyAccentColor s n c).objects m =
      if m = n then
        (lookupA s.objects n).map
          (fun o => if o.objType = "LIGHT" then { o with color := c } else o)
      else lookupA s.objects m := by
  unfold applyAccentColor
  cases h : lookupA s.objects n with
  | none =>
      by_cases hm : m = n
      · subst hm
        simp [h]
      · simp [hm]
  | some o =>
      dsimp only
      by_cases ht : o.objType = "LIGHT"
      · rw [if_pos ht]
        show lookupA (modifyA s.objects n _) m = _
        rw [lookupA_modifyA]
        by_cases hm : m = n <;> simp [hm, h, ht]
      · rw [if_neg ht]
        by_cases hm : m = n
        · subst hm
          rw [h]
          simp [ht]
        · simp [hm]

theorem adjustEPS_objects (s : Scene) (o : Obj) (mult : ℚ) :
    (adjust_emission_plane_strength s o mult).objects = s.objects := by
  unfold adjust_emission_plane_strength
  by_cases h : o.materials = [] <;> simp [h]

theorem matEmissionColors_scale (m : Material) (mult : ℚ) :
    matEmissionColors (scaleEmissionStrength m mult) = matEmissionColors m := by
  unfold scaleEmissionStrength matEmissionColors
  by_cases h : m.useNodes
  · simp only [h, if_true]
    induction m.nodes with
    | nil => rfl
    | cons a t ih => cases a <;> simp_all
  · simp [h]

theorem lookupA_scaleSlotMaterials_ne (slots : List (Option String)) (mult : ℚ)
    (ms : List (String × Material)) (m : String) (hm : (some m) ∉ slots) :
    lookupA (scaleSlotMaterials slots mult ms) m = lookupA ms m := by
  induction slots generalizing ms with
  | nil => rfl
  | cons slot rest ih =>
      rw [List.mem_cons, not_or] at hm
      show lookupA (scaleSlotMaterials rest mult _) m = _
      rw [ih _ hm.2]
      cases slot with
      | none => rfl
      | some n =>
          have hmn : m ≠ n := fun h => hm.1 (by rw [h])
          exact lookupA_modifyA_ne _ _ _ _ hmn

theorem lookupA_scaleSlotMaterials_colors (slots : List (Option String)) (mult : ℚ)
    (ms : List (String × Material)) (m : String) :
    (lookupA (scaleSlotMaterials slots mult ms) m).map matEmissionColors =
      (lookupA ms m).map matEmissionColors := by
  induction slots generalizing ms with
  | nil => rfl
  | cons slot rest ih =>
      show (lookupA (scaleSlotMaterials rest mult _) m).map matEmissionColors = _
      rw [ih]
      cases slot with
      | none => rfl
      | some n =>
          rw [lookupA_modifyA]
          by_cases hm : m = n
          · rw [if_pos hm, hm]
            cases lookupA ms n <;> simp [matEmissionColors_scale]
          · rw [if_neg hm]

theorem lookupA_adjustKeyLight (s : Scene) (mult : ℚ) (m : String) :
    lookupA (adjustKeyLight s mult).objects m =
      if m = "Light_Key" then
        (lookupA s.objects "Light_Key").map
          (fun o => if o.objType = "LIGHT" then { o with energy := o.energy * mult } else o)
      else lookupA s.objects m := by
  unfold adjustKeyLight
  cases h : lookupA s.objects "Light_Key" with
  | none =>
      by_cases hm : m = "Light_Key"
      · subst hm
        simp [h]
      · simp [hm]
  | some o =>
      dsimp only
      by_cases ht : o.objType = "LIGHT"
      · rw [if_pos ht]
        show lookupA (modifyA s.objects "Light_Key" _) m = _
        rw [lookupA_modifyA]
        by_cases hm : m = "Light_Key" <;> simp [hm, h, ht]
      · rw [if_neg ht]
        by_cases hmesh : o.objType = "MESH"
        · rw [if_pos hmesh, adjustEPS_objects]
          by_cases hm : m = "Light_Key"
          · subst hm
            rw [h]
            simp [ht]
          · simp [hm]
        · rw [if_neg hmesh]
          by_cases hm : m = "Light_Key"
          · subst hm
            rw [h]
            simp [ht]
          · simp [hm]

theorem adjustKeyLight_materials_colors (s : Scene) (mult : ℚ) (m : String) :
    (lookupA (adjustKeyLight s mult).materials m).map matEmissionColors =
      (lookupA s.materials m).map matEmissionColors := by
  unfold adjustKeyLight
  cases h : lookupA s.objects "Light_Key" with
  | none => rfl
  | some o =>
      dsimp only
      by_cases ht : o.objType = "LIGHT"
      · rw [if_pos ht]
      · rw [if_neg ht]
        by_cases hmesh : o.objType = "MESH"
        · rw [if_pos hmesh]
          unfold adjust_emission_plane_strength
          by_cases he : o.materials = []
          · simp [he]
          · rw [if_neg he]
            exact lookupA_scaleSlotMaterials_colors _ _ _ _
        · rw [if_neg hmesh]

theorem adjustKeyLight_materials_ne (s : Scene) (mult : ℚ) (m : String)
    (hm : (some m) ∉ keySlots s) :
    lookupA (adjustKeyLight s mult).materials m = lookupA s.materials m := by
  unfold adjustKeyLight
  unfold keySlots at hm
  cases h : lookupA s.objects "Light_Key" with
  | none => rfl
  | some o =>
      rw [h] at hm
      dsimp only at hm ⊢
      by_cases ht : o.objType = "LIGHT"
      · rw [if_pos ht]
      · rw [if_neg ht]
        by_cases hmesh : o.objType = "MESH"
        · rw [if_pos hmesh]
          unfold adjust_emission_plane_strength
          by_cases he : o.materials = []
          · simp [he]
          · rw [if_neg he]
            exact lookupA_scaleSlotMaterials_ne _ _ _ _ hm
        · rw [if_neg hmesh]

/-- Full object-level characterization of `configure_lights`: the Key light's
energy is multiplied (when it is a true light), the accent/fill lights are
recolored (when they are true lights), everything else is untouched. -/
theorem lookupA_configure_lights (t : Traits) (hk : String) (s : Scene) (m : String) :
    lookupA (configure_lights t hk s).objects m =
      (if m = "Light_Key" then
        (lookupA s.objects m).map (fun o =>
          if o.objType = "LIGHT" then
            { o with energy := o.energy *
                (get_light_signature_params (resolveLightSignature t hk)).energyMult }
          else o)
      else if m = "Light_Accent" ∨ m = "Light_Fill" then
        (lookupA s.objects m).map (fun o =>
          if o.objType = "LIGHT" then
            { o with color :=
                (get_light_signature_params (resolveLightSignature t hk)).accentColor }
          else o)
      else lookupA s.objects m) := by
  simp only [configure_lights]
  by_cases hkey : m = "Light_Key"
  · subst hkey
    rw [if_pos rfl, lookupA_applyAccent, if_neg (by decide), lookupA_applyAccent,
      if_neg (by decide), lookupA_adjustKeyLight, if_pos rfl]
  · by_cases hacc : m = "Light_Accent"
    · subst hacc
      rw [lookupA_applyAccent, if_neg (by decide), lookupA_applyAccent, if_pos rfl,
        lookupA_adjustKeyLight, if_neg (by decide)]
      simp
    · by_cases hfill : m = "Light_Fill"
      · subst hfill
        rw [lookupA_applyAccent, if_pos rfl, lookupA_applyAccent, if_neg (by decide),
          lookupA_adjustKeyLight, if_neg (by decide)]
        simp
      · rw [lookupA_applyAccent, if_neg hfill, lookupA_applyAccent, if_neg hacc,
          lookupA_adjustKeyLight, if_neg hkey]
        simp [hkey, hacc, hfill]

/-- `configure_lights` never changes any emission node's color in any
material. -/
theorem configure_lights_materials_colors (t : Traits) (hk : String) (s : Scene)
    (m : String) :
    (lookupA (configure_lights t hk s).materials m).map matEmissionColors =
      (lookupA s.materials m).map matEmissionColors := by
  simp only [configure_lights]
  rw [applyAccent_materials, applyAccent_materials]
  exact adjustKeyLight_materials_colors _ _ _

/-- `configure_lights` leaves every material not referenced by the Key light's
slots fully unchanged. -/
theorem configure_lights_materials_ne (t : Traits) (hk : String) (s : Scene)
    (m : String) (hm : (some m) ∉ keySlots s) :
    lookupA (configure_lights t hk s).materials m = lookupA s.materials m := by
  simp only [configure_lights]
  rw [applyAccent_materials, applyAccent_materials]
  exact adjustKeyLight_materials_ne _ _ _ hm

/-! ## C6: THUNDER default light signature -/

/-- C6: with no LightSignature trait and houseKey `THUNDER`, the signature
resolves to `LightningFork` via the house-default table, its energy multiplier
is `1.5`, and the Key light's energy is multiplied by `1.5`. -/
theorem thunder_default_light_signature (t : Traits) (s : Scene) (o : Obj)
    (hns : traitsGet t "LightSignature" = none)
    (ho : lookupA s.objects "Light_Key" = some o)
    (hl : o.objType = "LIGHT") :
    resolveLightSignature t "THUNDER" = "LightningFork" ∧
    (get_light_signature_params "LightningFork").energyMult = 1.5 ∧
    (lookupA (configure_lights t "THUNDER" s).objects "Light_Key").map Obj.energy =
      some (o.energy * 1.5) := by
  have hsig : resolveLightSignature t "THUNDER" = "LightningFork" := by
    unfold resolveLightSignature
    rw [hns]
    rfl
  have hE : (get_light_signature_params "LightningFork").energyMult = 1.5 := rfl
  refine ⟨hsig, hE, ?_⟩
  rw [lookupA_configure_lights, if_pos rfl, ho, hsig]
  simp [hl, hE]

/-- Witness for C6 at the template scene with an empty traits mapping. -/
theorem thunder_default_light_signature_witness :
    resolveLightSignature [] "THUNDER" = "LightningFork" ∧
      (get_light_signature_params "LightningFork").energyMult = 1.5 ∧
      (lookupA (configure_lights [] "THUNDER" templateScene).objects "Light_Key").map
        Obj.energy = some (100 * 1.5) :=
  thunder_default_light_signature [] templateScene
    ⟨"LIGHT", false, false, 100, (1, 1, 1), []⟩ rfl (by rfl) rfl

/-! ## C8: scope of the light-signature adjustments -/

/-- C8: the resolved energy multiplier scales the Key light's strength and no
other light's (neither other true lights' energies nor materials off the Key
plane); the accent color lands on `Light_Accent`/`Light_Fill` only when they
are true `LIGHT` objects, non-light objects keep their color, and no emission
node's color in any material is ever touched. -/
theorem configure_lights_energy_and_accent_scope (t : Traits) (hk : String) (s : Scene) :
    (∀ o, lookupA s.objects "Light_Key" = some o → o.objType = "LIGHT" →
      (lookupA (configure_lights t hk s).objects "Light_Key").map Obj.energy =
        some (o.energy *
          (get_light_signature_params (resolveLightSignature t hk)).energyMult)) ∧
    (∀ n o, n ≠ "Light_Key" → lookupA s.objects n = some o →
      (lookupA (configure_lights t hk s).objects n).map Obj.energy = some o.energy) ∧
    (∀ n, (n = "Light_Accent" ∨ n = "Light_Fill") → ∀ o, lookupA s.objects n = some o →
      o.objType = "LIGHT" →
      (lookupA (configure_lights t hk s).objects n).map Obj.color =
        some (get_light_signature_params (resolveLightSignature t hk)).accentColor) ∧
    (∀ n o, lookupA s.objects n = some o → o.objType ≠ "LIGHT" →
      (lookupA (configure_lights t hk s).objects n).map Obj.color = some o.color) ∧
    (∀ m, (lookupA (configure_lights t hk s).materials m).map matEmissionColors =
      (lookupA s.materials m).map matEmissionColors) ∧
    (∀ m, (some m) ∉ keySlots s →
      lookupA (configure_lights t hk s).materials m = lookupA s.materials m) := by
  refine ⟨?_, ?_, ?_, ?_, ?_, ?_⟩
  · intro o ho hl
    rw [lookupA_configure_lights, if_pos rfl, ho]
    simp [hl]
  · intro n o hne ho
    rw [lookupA_configure_lights, if_neg hne]
    by_cases haf : n = "Light_Accent" ∨ n = "Light_Fill"
    · rw [if_pos haf, ho]
      by_cases hl : o.objType = "LIGHT" <;> simp [hl]
    · rw [if_neg haf, ho]
      rfl
  · intro n hn o ho hl
    have hnk : n ≠ "Light_Key" := by
      rcases hn with h | h <;> (subst h; decide)
    rw [lookupA_configure_lights, if_neg hnk, if_pos hn, ho]
    simp [hl]
  · intro n o ho hl
    rw [lookupA_configure_lights]
    by_cases hkey : n = "Light_Key"
    · rw [if_pos hkey, ho]
      simp [hl]
    · rw [if_neg hkey]
      by_cases haf : n = "Light_Accent" ∨ n = "Light_Fill"
      · rw [if_pos haf, ho]
        simp [hl]
      · rw [if_neg haf, ho]
        rfl
  · intro m
    exact configure_lights_materials_colors t hk s m
  · intro m hm
    exact configure_lights_materials_ne t hk s m hm

/-- Witness for C8 on the template scene with house `FROST`: Key energy
scaled, the `Light_Fill` true light recolored, the `Light_Rim` emission
plane's material colors untouched. -/
theorem configure_lights_energy_and_accent_scope_witness :
    (lookupA (configure_lights [] "FROST" templateScene).objects "Light_Key").map
        Obj.energy =
      some (100 * (get_light_signature_params (resolveLightSignature [] "FROST")).energyMult) ∧
    (lookupA (configure_lights [] "FROST" templateScene).objects "Light_Fill").map
        Obj.color =
      some (get_light_signature_params (resolveLightSignature [] "FROST")).accentColor ∧
    (lookupA (configure_lights [] "FROST" templateScene).materials "MAT_Rim").map
        matEmissionColors =
      (lookupA templateScene.materials "MAT_Rim").map matEmissionColors := by
  have h := configure_lights_energy_and_accent_scope [] "FROST" templateScene
  exact ⟨h.1 ⟨"LIGHT", false, false, 100, (1, 1, 1), []⟩ (by rfl) rfl,
    h.2.2.1 "Light_Fill" (Or.inr rfl) ⟨"LIGHT", false, false, 50, (1, 1, 1), []⟩
      (by rfl) rfl,
    h.2.2.2.2.1 "MAT_Rim"⟩

/-! ## C7: recipe validation -/

/-- C7: `load_recipe` raises a validation error iff one of the six required
top-level fields is absent; the error names a missing field; and in that case
`main` propagates the error with the scene untouched (validation happens
before anything is configured). -/
theorem load_recipe_required_fields (d : RecipeDict) (outputPath : String) (s : Scene) :
    ((∃ e, load_recipe d = Except.error e) ↔
      (d.tokenIdField = none ∨ d.houseKeyField = none ∨ d.seedField = none ∨
       d.traitsField = none ∨ d.outputField = none ∨ d.renderSettingsField = none)) ∧
    (∀ e, load_recipe d = Except.error e →
      ((e = "Missing required field: tokenId" ∧ d.tokenIdField = none) ∨
       (e = "Missing required field: houseKey" ∧ d.houseKeyField = none) ∨
       (e = "Missing required field: seed" ∧ d.seedField = none) ∨
       (e = "Missing required field: traits" ∧ d.traitsField = none) ∨
       (e = "Missing required field: output" ∧ d.outputField = none) ∨
       (e = "Missing required field: renderSettings" ∧ d.renderSettingsField = none))) ∧
    (∀ e, load_recipe d = Except.error e →
      mainRun d outputPath s = (Except.error e, s)) := by
  obtain ⟨f1, f2, f3, f4, f5, f6⟩ := d
  cases f1 <;> cases f2 <;> cases f3 <;> cases f4 <;> cases f5 <;> cases f6 <;>
    simp [load_recipe, mainRun]

/-- A recipe dict whose only missing required field is `seed`. -/
def recipeDictMissingSeed : RecipeDict :=
  ⟨some "token-1", some "THUNDER", none, some [],
   some ⟨none, none, none, none, none⟩, some ⟨none, none, none, none, none⟩⟩

/-- Witness for C7: the missing `seed` is reported by name and the scene state
is unchanged. -/
theorem load_recipe_required_fields_witness :
    load_recipe recipeDictMissingSeed = Except.error "Missing required field: seed" ∧
      mainRun recipeDictMissingSeed "out.webp" templateScene =
        (Except.error "Missing required field: seed", templateScene) := by
  have h := load_recipe_required_fields recipeDictMissingSeed "out.webp" templateScene
  exact ⟨rfl, h.2.2 _ rfl⟩

/-! ## C1: determinism of the resolve-and-build pipeline -/

theorem configure_geometry_congr (t1 t2 : Traits) (s : Scene)
    (ht : ∀ k, traitsGet t1 k = traitsGet t2 k) :
    configure_geometry t1 s = configure_geometry t2 s := by
  unfold configure_geometry
  simp only [ht]

theorem configure_frame_material_congr (t1 t2 : Traits) (s : Scene)
    (ht : ∀ k, traitsGet t1 k = traitsGet t2 k) :
    configure_frame_material t1 s = configure_frame_material t2 s := by
  unfold configure_frame_material
  simp only [ht]

theorem configure_core_material_congr (t1 t2 : Traits) (s : Scene)
    (ht : ∀ k, traitsGet t1 k = traitsGet t2 k) :
    configure_core_material t1 s = configure_core_material t2 s := by
  unfold configure_core_material
  simp only [ht]

theorem configure_lights_congr (t1 t2 : Traits) (hk : String) (s : Scene)
    (ht : ∀ k, traitsGet t1 k = traitsGet t2 k) :
    configure_lights t1 hk s = configure_lights t2 hk s := by
  unfold configure_lights resolveLightSignature
  simp only [ht]

theorem configure_lens_bloom_congr (t1 t2 : Traits) (s : Scene)
    (ht : ∀ k, traitsGet t1 k = traitsGet t2 k) :
    configure_lens_bloom t1 s = configure_lens_bloom t2 s := by
  unfold configure_lens_bloom
  simp only [ht]

theorem apply_palette_temperature_congr (t1 t2 : Traits) (s : Scene)
    (ht : ∀ k, traitsGet t1 k = traitsGet t2 k) :
    apply_palette_temperature t1 s = apply_palette_temperature t2 s := by
  unfold apply_palette_temperature
  simp only [ht]

/-- C1: the configuration phase of `render_token` is a pure function of the
recipe's observable content and the starting scene: two recipes with the same
houseKey, seed, output and render settings, and extensionally equal traits
mappings, drive the pipeline to identical resolved scenes (in particular, two
runs of the same recipe coincide).  The tokenId is irrelevant. -/
theorem render_token_config_deterministic (r1 r2 : Recipe) (outputPath : String)
    (s : Scene)
    (hh : r1.houseKey = r2.houseKey) (hs : r1.seed = r2.seed)
    (ht : ∀ k, traitsGet r1.traits k = traitsGet r2.traits k)
    (ho : r1.output = r2.output) (hr : r1.renderSettings = r2.renderSettings) :
    renderTokenConfig r1 outputPath s = renderTokenConfig r2 outputPath s := by
  have hg : ∀ s1, configure_geometry r1.traits s1 = configure_geometry r2.traits s1 :=
    fun s1 => configure_geometry_congr _ _ s1 ht
  have hf : ∀ s1, configure_frame_material r1.traits s1 = configure_frame_material r2.traits s1 :=
    fun s1 => configure_frame_material_congr _ _ s1 ht
  have hc : ∀ s1, configure_core_material r1.traits s1 = configure_core_material r2.traits s1 :=
    fun s1 => configure_core_material_congr _ _ s1 ht
  have hli : ∀ hk s1, configure_lights r1.traits hk s1 = configure_lights r2.traits hk s1 :=
    fun hk s1 => configure_lights_congr _ _ hk s1 ht
  have hb : ∀ s1, configure_lens_bloom r1.traits s1 = configure_lens_bloom r2.traits s1 :=
    fun s1 => configure_lens_bloom_congr _ _ s1 ht
  have hpt : ∀ s1, apply_palette_temperature r1.traits s1 = apply_palette_temperature r2.traits s1 :=
    fun s1 => apply_palette_temperature_congr _ _ s1 ht
  unfold renderTokenConfig
  simp only [hh, hs, ho, hr, hg, hf, hc, hli, hb, hpt, configure_atmosphere_id]

/-- Two concrete recipes differing only in tokenId and in the order of the
traits list. -/
def recipeRunA : Recipe :=
  ⟨"token-1", "FROST", "0xA1",
   [("FrameType", "WhiteGold"), ("CoreMaterial", "FrozenPlasma")],
   ⟨none, none, none, none, none⟩, ⟨none, none, none, none, none⟩⟩

/-- The rerun counterpart of `recipeRunA`. -/
def recipeRunB : Recipe :=
  ⟨"token-1-rerun", "FROST", "0xA1",
   [("CoreMaterial", "FrozenPlasma"), ("FrameType", "WhiteGold")],
   ⟨none, none, none, none, none⟩, ⟨none, none, none, none, none⟩⟩

/-- Witness for C1 at two concrete equal-content recipes on the template
scene. -/
theorem render_token_config_deterministic_witness :
    renderTokenConfig recipeRunA "out.webp" templateScene =
      renderTokenConfig recipeRunB "out.webp" templateScene :=
  render_token_config_deterministic recipeRunA recipeRunB "out.webp" templateScene
    rfl rfl
    (by
      intro k
      by_cases h1 : k = "FrameType"
      · subst h1
        rfl
      · by_cases h2 : k = "CoreMaterial"
        · subst h2
          rfl
        · simp [recipeRunA, recipeRunB, traitsGet, lookupA, h1, h2])
    rfl rfl
